import Mathlib

/- Verification of the channel & messaging gateway of meshcore-dashboard:
   a shallow embedding of src/app/api/routes/channels.py and
   src/app/api/routes/messages.py, followed by theorems about the claims of
   the specification. Python strings are modelled as lists of characters so
   that every operation reduces in the kernel. -/

/-- Python strings, modelled as lists of characters. -/
abbrev Str := List Char

/-- Python str.lower(). -/
def lowerStr (s : Str) : Str := s.map Char.toLower

/-- Python str.strip(): remove leading and trailing whitespace. -/
def trimStr (s : Str) : Str :=
  ((s.dropWhile Char.isWhitespace).reverse.dropWhile Char.isWhitespace).reverse

/-- Decimal digits of a natural number (fuelled repeated division),
    as Python str() renders a non-negative int. -/
def natDigitsAux : Nat → Nat → Str
  | 0, _ => []
  | fuel+1, n =>
    if n < 10 then [Char.ofNat (48 + n % 10)]
    else natDigitsAux fuel (n / 10) ++ [Char.ofNat (48 + n % 10)]

/-- Python str() of a natural number. -/
def natToStr (n : Nat) : Str := natDigitsAux (n+1) n

/-- A single-quote character, used inside diagnostic messages. -/
def squote : Str := [Char.ofNat 39]

/-- One lowercase hexadecimal digit, as produced by Python bytes.hex(). -/
def hexChar (n : Nat) : Char :=
  if n < 10 then Char.ofNat (48 + n) else Char.ofNat (87 + n)

/-- Two-digit lowercase hex rendering of one byte. -/
def byteToHex (b : Nat) : Str := [hexChar (b % 256 / 16), hexChar (b % 256 % 16)]

/-- The raw channel_secret value found in a device payload: either a byte
    string (Python bytes / bytearray) or some other value. -/
inductive SecretRaw where
  | bytes (bs : List Nat)
  | other (s : Str)
deriving DecidableEq

/-- `secret_raw.hex() if isinstance(secret_raw, (bytes, bytearray)) else
    str(secret_raw)` — the secret_hex string the routes compute. -/
def SecretRaw.toHex : SecretRaw → Str
  | .bytes bs => (bs.map byteToHex).flatten
  | .other s => s

/-- The payload of a successful get_channel event, with the dict defaults of
    the source applied: channel_name defaults to "", channel_secret defaults
    to b"", channel_idx may be absent (the code falls back to the probed
    index). -/
structure SlotPayload where
  channelName : Str
  channelSecret : SecretRaw
  channelIdx : Option Nat
deriving DecidableEq

/-- Outcome of one `await meshcore.commands.get_channel(idx)` call: the call
    can raise (transport error), return None, return an EventType.ERROR
    event, or return a normal event carrying a payload. -/
inductive SlotResponse where
  | transportError (msg : Str)
  | noResponse
  | errorSignal
  | ok (p : SlotPayload)
deriving DecidableEq

/-- A device behaviour for the probe loops: the response to each probed
    index. -/
abbrev Device := Nat → SlotResponse

/-- _MAX_CHANNEL_SLOTS from both route modules. -/
def MAX_CHANNEL_SLOTS : Nat := 8

/-- _is_empty_slot from channels.py:
    `not name and all(c == "0" for c in secret_hex)`. -/
def isEmptySlot (name : Str) (secretHex : Str) : Bool :=
  name.isEmpty && secretHex.all (fun c => c == '0')

/-- One entry of the channels list returned by the routes. -/
structure ChannelInfo where
  index : Nat
  name : Str
  secretHex : Str
deriving DecidableEq

/-- The entry appended for a populated slot probed at index idx: the index
    field is `payload.get("channel_idx", idx)`. -/
def mkChannelInfo (idx : Nat) (p : SlotPayload) : ChannelInfo :=
  ⟨p.channelIdx.getD idx, p.channelName, p.channelSecret.toHex⟩

/-- Loop of _fetch_all_channels: probe indices left to right; any transport
    error, missing response or ERROR event stops the loop; empty slots are
    skipped; populated slots are appended. -/
def fetchAllChannelsAux (dev : Device) (idx : Nat) : Nat → List ChannelInfo
  | 0 => []
  | fuel+1 =>
    match dev idx with
    | .ok p =>
      if isEmptySlot p.channelName p.channelSecret.toHex then
        fetchAllChannelsAux dev (idx+1) fuel
      else
        mkChannelInfo idx p :: fetchAllChannelsAux dev (idx+1) fuel
    | _ => []

/-- _fetch_all_channels from channels.py. -/
def fetchAllChannels (dev : Device) : List ChannelInfo :=
  fetchAllChannelsAux dev 0 MAX_CHANNEL_SLOTS

/-- Ghost view of the probe loop: the (probed index, payload) pairs actually
    obtained, i.e. the prefix of probes answered by a normal event, in probe
    order. -/
def okProbesAux (dev : Device) (idx : Nat) : Nat → List (Nat × SlotPayload)
  | 0 => []
  | fuel+1 =>
    match dev idx with
    | .ok p => (idx, p) :: okProbesAux dev (idx+1) fuel
    | _ => []

/-- The slots discovered by a probe loop starting at index 0. -/
def okProbes (dev : Device) : List (Nat × SlotPayload) :=
  okProbesAux dev 0 MAX_CHANNEL_SLOTS

/-- A discovered slot is populated when _is_empty_slot rejects it. -/
def populatedSlot (e : Nat × SlotPayload) : Bool :=
  !(isEmptySlot e.2.channelName e.2.channelSecret.toHex)

/-- An HTTPException raised by the routes: status code and the message field
    of its detail payload. -/
structure HttpErr where
  status : Nat
  message : Str
deriving DecidableEq

/-- The ChannelsResponse model of channels.py. -/
structure ChannelsResponse where
  status : Str
  channels : List ChannelInfo
deriving DecidableEq

instance {ε α : Type} [DecidableEq ε] [DecidableEq α] : DecidableEq (Except ε α) :=
  fun x y =>
    match x, y with
    | .error a, .error b =>
      if h : a = b then isTrue (congrArg Except.error h)
      else isFalse (fun hc => h (Except.error.inj hc))
    | .error _, .ok _ => isFalse (fun hc => Except.noConfusion hc)
    | .ok _, .error _ => isFalse (fun hc => Except.noConfusion hc)
    | .ok a, .ok b =>
      if h : a = b then isTrue (congrArg Except.ok h)
      else isFalse (fun hc => h (Except.ok.inj hc))

/-- Message of the 502 raised when connect_to_device raises. -/
def connectFailMsg (m : Str) : Str := "Device connection failed: ".data ++ m

/-- GET /api/channels after token auth: `connect` is None on success or the
    connection exception text; then the device is scanned. The scan itself
    never raises, so a connected request always returns status "ok". -/
def getChannels (connect : Option Str) (dev : Device) : Except HttpErr ChannelsResponse :=
  match connect with
  | some m => .error ⟨502, connectFailMsg m⟩
  | none => .ok ⟨"ok".data, fetchAllChannels dev⟩

/-- Result of the probe loop of create_channel: either a duplicate-name
    conflict found at some index, or loop exit carrying the recorded first
    free slot (if any). -/
inductive ProbeOut where
  | conflict (idx : Nat) (name : Str)
  | done (freeSlot : Option Nat)
deriving DecidableEq

/-- The probe loop of create_channel: same stop rules as the scanner; the
    first empty slot is recorded as free_slot; a populated slot whose
    lower-cased name equals the lower-cased requested name raises 409 at
    once (modelled as ProbeOut.conflict). -/
def createProbeAux (dev : Device) (channelName : Str) (idx : Nat)
    (freeSlot : Option Nat) : Nat → ProbeOut
  | 0 => .done freeSlot
  | fuel+1 =>
    match dev idx with
    | .ok p =>
      if isEmptySlot p.channelName p.channelSecret.toHex then
        createProbeAux dev channelName (idx+1)
          (if freeSlot.isNone then some idx else freeSlot) fuel
      else if lowerStr p.channelName == lowerStr channelName then
        .conflict idx p.channelName
      else
        createProbeAux dev channelName (idx+1) freeSlot fuel
    | _ => .done freeSlot

/-- The full probe pass of create_channel. -/
def createProbe (dev : Device) (channelName : Str) : ProbeOut :=
  createProbeAux dev channelName 0 none MAX_CHANNEL_SLOTS

/-- Outcome of `await meshcore.commands.set_channel(free_slot, name)`. -/
inductive AckResponse where
  | transportError (msg : Str)
  | noResponse
  | errorSignal (payload : Str)
  | ok
deriving DecidableEq

/-- Message of the 400 raised for a blank requested name. -/
def msgNameEmpty : Str := "Channel name must not be empty".data

/-- Message of the 409 duplicate-name error, naming the conflicting slot. -/
def conflictMsg (nm : Str) (idx : Nat) : Str :=
  "Channel ".data ++ squote ++ nm ++ squote ++ " already exists at index ".data ++ natToStr idx

/-- Message of the 400 raised when no free slot was recorded. -/
def msgNoFreeSlot : Str :=
  "No free channel slot available (all 8 slots are occupied)".data

/-- Message of the 502 raised when set_channel raises. -/
def writeFailMsg (m : Str) : Str := "Failed to write channel: ".data ++ m

/-- The literal used when the ack object is missing. -/
def noResponseStr : Str := "no response".data

/-- Message of the 504 raised when the create ack is missing or an ERROR
    event; err is the device payload or the "no response" literal. -/
def createNoAckMsg (err : Str) : Str :=
  "Device did not acknowledge channel creation: ".data ++ err

/-- A run of POST /api/channels: which set_channel call was issued (if any)
    and the HTTP outcome. -/
structure CreateRun where
  writeIssued : Option (Nat × Str)
  outcome : Except HttpErr ChannelsResponse
deriving DecidableEq

/-- create_channel from channels.py. `rawName` is the request body name,
    `connect` the connection outcome, `dev` answers the probe loop, `ack`
    answers the set_channel write, `postDev` answers the re-scan after a
    successful write. -/
def createChannel (rawName : Str) (connect : Option Str) (dev : Device)
    (ack : AckResponse) (postDev : Device) : CreateRun :=
  let channelName := trimStr rawName
  if channelName.isEmpty then ⟨none, .error ⟨400, msgNameEmpty⟩⟩
  else
    match connect with
    | some m => ⟨none, .error ⟨502, connectFailMsg m⟩⟩
    | none =>
      match createProbe dev channelName with
      | .conflict idx nm => ⟨none, .error ⟨409, conflictMsg nm idx⟩⟩
      | .done none => ⟨none, .error ⟨400, msgNoFreeSlot⟩⟩
      | .done (some freeSlot) =>
        match ack with
        | .transportError m =>
          ⟨some (freeSlot, channelName), .error ⟨502, writeFailMsg m⟩⟩
        | .noResponse =>
          ⟨some (freeSlot, channelName), .error ⟨504, createNoAckMsg noResponseStr⟩⟩
        | .errorSignal pl =>
          ⟨some (freeSlot, channelName), .error ⟨504, createNoAckMsg pl⟩⟩
        | .ok =>
          ⟨some (freeSlot, channelName), .ok ⟨"ok".data, fetchAllChannels postDev⟩⟩

/-- _strip_hash from messages.py: `channel.lstrip("#")` removes every
    leading marker character. -/
def stripHash (channel : Str) : Str := channel.dropWhile (fun c => c == '#')

/-- Message of the 404 raised when no slot name matches. -/
def notFoundMsg (cn : Str) : Str :=
  "Channel ".data ++ squote ++ cn ++ squote ++ " not found on device".data

/-- Loop of _resolve_channel_index: same probe/stop/skip rules as the
    scanner; returns the first populated slot whose stripped, lower-cased
    name equals the needle, together with the number of get_channel calls
    issued. -/
def resolveAux (dev : Device) (needle : Str) (idx : Nat) :
    Nat → Option (Nat × Str) × Nat
  | 0 => (none, 0)
  | fuel+1 =>
    match dev idx with
    | .ok p =>
      if isEmptySlot p.channelName p.channelSecret.toHex then
        let r := resolveAux dev needle (idx+1) fuel
        (r.1, r.2 + 1)
      else if lowerStr (stripHash p.channelName) == needle then
        (some (p.channelIdx.getD idx, p.channelName), 1)
      else
        let r := resolveAux dev needle (idx+1) fuel
        (r.1, r.2 + 1)
    | _ => (none, 1)

/-- _resolve_channel_index from messages.py: result plus the number of
    get_channel calls issued. -/
def resolveChannelIndex (dev : Device) (channelName : Str) :
    Except HttpErr (Nat × Str) × Nat :=
  let r := resolveAux dev (lowerStr (stripHash channelName)) 0 MAX_CHANNEL_SLOTS
  match r.1 with
  | some v => (.ok v, r.2)
  | none => (.error ⟨404, notFoundMsg channelName⟩, r.2)

/-- Outcome of the bounded `asyncio.wait_for(send_chan_msg(...), timeout=10)`
    call: the wait can expire, the call can raise, return None, return an
    ERROR event, or acknowledge. -/
inductive SendAck where
  | timeout
  | transportError (msg : Str)
  | noResponse
  | errorSignal (payload : Str)
  | ok
deriving DecidableEq

/-- The SendMessageResponse model of messages.py. -/
structure SendResp where
  status : Str
  channelIndex : Nat
  channelName : Str
deriving DecidableEq

/-- Message of the 400 raised for a blank channel field. -/
def msgChannelEmpty : Str := "channel must not be empty".data

/-- Message of the 400 raised for a blank message field. -/
def msgMessageEmpty : Str := "message must not be empty".data

/-- Message of the 504 raised when the bounded wait expires. -/
def sendTimeoutMsg : Str :=
  "Device did not acknowledge the message send (timeout)".data

/-- Message of the 502 raised when send_chan_msg raises. -/
def sendFailMsg (m : Str) : Str := "Failed to send message: ".data ++ m

/-- Message of the 502 raised when the ack is missing or an ERROR event;
    err is the device payload or the "no response" literal. -/
def rejectedMsg (err : Str) : Str := "Device rejected the message: ".data ++ err

/-- A run of POST /api/messages: whether a device session was opened, how
    many get_channel probes were issued, whether send_chan_msg was issued,
    and the HTTP outcome. -/
structure SendRun where
  sessionOpened : Bool
  deviceCalls : Nat
  sendIssued : Bool
  outcome : Except HttpErr SendResp
deriving DecidableEq

/-- send_message from messages.py. Field validation happens before any
    device interaction; then connect, resolve, and the bounded send. -/
def sendMessage (rawChannel rawMessage : Str) (connect : Option Str)
    (dev : Device) (ack : SendAck) : SendRun :=
  let channelName := trimStr rawChannel
  let messageText := trimStr rawMessage
  if channelName.isEmpty then ⟨false, 0, false, .error ⟨400, msgChannelEmpty⟩⟩
  else if messageText.isEmpty then ⟨false, 0, false, .error ⟨400, msgMessageEmpty⟩⟩
  else
    match connect with
    | some m => ⟨false, 0, false, .error ⟨502, connectFailMsg m⟩⟩
    | none =>
      let r := resolveChannelIndex dev channelName
      match r.1 with
      | .error e => ⟨true, r.2, false, .error e⟩
      | .ok (chanIdx, chanName) =>
        match ack with
        | .timeout => ⟨true, r.2, true, .error ⟨504, sendTimeoutMsg⟩⟩
        | .transportError m => ⟨true, r.2, true, .error ⟨502, sendFailMsg m⟩⟩
        | .noResponse => ⟨true, r.2, true, .error ⟨502, rejectedMsg noResponseStr⟩⟩
        | .errorSignal pl => ⟨true, r.2, true, .error ⟨502, rejectedMsg pl⟩⟩
        | .ok => ⟨true, r.2, true, .ok ⟨"ok".data, chanIdx, chanName⟩⟩

/- ── Helper lemmas about the probe loops ──────────────────────────────────── -/

/-- The scan loop returns exactly the populated discovered slots, in probe
    order. -/
theorem fetchAllChannelsAux_eq_filter (dev : Device) (fuel : Nat) :
    ∀ idx, fetchAllChannelsAux dev idx fuel =
      ((okProbesAux dev idx fuel).filter populatedSlot).map
        (fun e => mkChannelInfo e.1 e.2) := by
  induction fuel with
  | zero => intro idx; rfl
  | succ n ih =>
    intro idx
    cases h : dev idx with
    | ok p =>
      by_cases he : isEmptySlot p.channelName p.channelSecret.toHex
      · simp [fetchAllChannelsAux, okProbesAux, h, populatedSlot, he, ih]
      · simp [fetchAllChannelsAux, okProbesAux, h, populatedSlot, he, ih]
    | transportError m => simp [fetchAllChannelsAux, okProbesAux, h]
    | noResponse => simp [fetchAllChannelsAux, okProbesAux, h]
    | errorSignal => simp [fetchAllChannelsAux, okProbesAux, h]

/-- Every slot discovered from index idx onward has probed index at least
    idx. -/
theorem okProbesAux_lb (dev : Device) (fuel : Nat) :
    ∀ idx, ∀ e ∈ okProbesAux dev idx fuel, idx ≤ e.1 := by
  induction fuel with
  | zero => intro idx e he; simp [okProbesAux] at he
  | succ n ih =>
    intro idx e he
    cases h : dev idx with
    | ok p =>
      rw [okProbesAux, h] at he
      rcases List.mem_cons.mp he with h1 | h1
      · subst h1; exact Nat.le_refl idx
      · exact Nat.le_of_lt (Nat.lt_of_lt_of_le (Nat.lt_succ_self idx) (ih (idx+1) e h1))
    | transportError m => rw [okProbesAux, h] at he; simp at he
    | noResponse => rw [okProbesAux, h] at he; simp at he
    | errorSignal => rw [okProbesAux, h] at he; simp at he

/-- The discovered slots carry strictly increasing probed indices. -/
theorem okProbesAux_pairwise (dev : Device) (fuel : Nat) :
    ∀ idx, List.Pairwise (fun a b => a.1 < b.1) (okProbesAux dev idx fuel) := by
  induction fuel with
  | zero => intro idx; simp [okProbesAux]
  | succ n ih =>
    intro idx
    cases h : dev idx with
    | ok p =>
      rw [okProbesAux, h]
      exact List.Pairwise.cons
        (fun e he => Nat.lt_of_lt_of_le (Nat.lt_succ_self idx) (okProbesAux_lb dev n (idx+1) e he))
        (ih (idx+1))
    | transportError m => rw [okProbesAux, h]; exact List.Pairwise.nil
    | noResponse => rw [okProbesAux, h]; exact List.Pairwise.nil
    | errorSignal => rw [okProbesAux, h]; exact List.Pairwise.nil

/-- Emptiness of a discovered slot, as the probe loops test it. -/
def emptySlotEntry (e : Nat × SlotPayload) : Bool :=
  isEmptySlot e.2.channelName e.2.channelSecret.toHex

/-- The first empty slot discovered by a probe loop from idx. -/
def firstEmptySlotAux (dev : Device) (idx fuel : Nat) : Option Nat :=
  (((okProbesAux dev idx fuel).filter emptySlotEntry).head?).map Prod.fst

/-- The first empty slot recorded by the create probe pass. -/
def firstEmptySlot (dev : Device) : Option Nat :=
  firstEmptySlotAux dev 0 MAX_CHANNEL_SLOTS

/-- No discovered populated slot matches the requested name
    case-insensitively. -/
def noNameConflict (dev : Device) (cn : Str) (idx fuel : Nat) : Prop :=
  ∀ e ∈ okProbesAux dev idx fuel,
    emptySlotEntry e = false → lowerStr e.2.channelName ≠ lowerStr cn

instance (dev : Device) (cn : Str) (idx fuel : Nat) :
    Decidable (noNameConflict dev cn idx fuel) := by
  unfold noNameConflict
  infer_instance

/-- Once a free slot is recorded, a conflict-free probe keeps it. -/
theorem createProbeAux_some (dev : Device) (cn : Str) (fuel : Nat) :
    ∀ idx a, noNameConflict dev cn idx fuel →
      createProbeAux dev cn idx (some a) fuel = .done (some a) := by
  induction fuel with
  | zero => intro idx a _; rfl
  | succ n ih =>
    intro idx a hnc
    cases h : dev idx with
    | ok p =>
      by_cases he : isEmptySlot p.channelName p.channelSecret.toHex
      · rw [createProbeAux, h]
        simp only [he, if_true, Option.isNone_some, Bool.false_eq_true, if_false]
        exact ih (idx+1) a (fun e hme hpe =>
          hnc e (by rw [okProbesAux, h]; exact List.mem_cons_of_mem _ hme) hpe)
      · have hne : lowerStr p.channelName ≠ lowerStr cn :=
          hnc (idx, p) (by rw [okProbesAux, h]; exact List.mem_cons_self _ _)
            (by simp [emptySlotEntry, he])
        rw [createProbeAux, h]
        simp only [he, if_false, beq_iff_eq, hne]
        exact ih (idx+1) a (fun e hme hpe =>
          hnc e (by rw [okProbesAux, h]; exact List.mem_cons_of_mem _ hme) hpe)
    | transportError m => rw [createProbeAux, h]
    | noResponse => rw [createProbeAux, h]
    | errorSignal => rw [createProbeAux, h]

/-- A conflict-free probe pass exits carrying the first discovered empty
    slot. -/
theorem createProbeAux_none (dev : Device) (cn : Str) (fuel : Nat) :
    ∀ idx, noNameConflict dev cn idx fuel →
      createProbeAux dev cn idx none fuel = .done (firstEmptySlotAux dev idx fuel) := by
  induction fuel with
  | zero => intro idx _; rfl
  | succ n ih =>
    intro idx hnc
    cases h : dev idx with
    | ok p =>
      by_cases he : isEmptySlot p.channelName p.channelSecret.toHex
      · rw [createProbeAux, h]
        simp only [he, if_true, Option.isNone_none, if_true]
        rw [createProbeAux_some dev cn n (idx+1) idx (fun e hme hpe =>
          hnc e (by rw [okProbesAux, h]; exact List.mem_cons_of_mem _ hme) hpe)]
        unfold firstEmptySlotAux
        rw [okProbesAux, h]
        simp [List.filter_cons, emptySlotEntry, he]
      · have hne : lowerStr p.channelName ≠ lowerStr cn :=
          hnc (idx, p) (by rw [okProbesAux, h]; exact List.mem_cons_self _ _)
            (by simp [emptySlotEntry, he])
        rw [createProbeAux, h]
        simp only [he, if_false, beq_iff_eq, hne]
        rw [ih (idx+1) (fun e hme hpe =>
          hnc e (by rw [okProbesAux, h]; exact List.mem_cons_of_mem _ hme) hpe)]
        unfold firstEmptySlotAux
        rw [okProbesAux, h]
        simp [List.filter_cons, emptySlotEntry, he]
    | transportError m =>
      rw [createProbeAux, h]; unfold firstEmptySlotAux; rw [okProbesAux, h]; rfl
    | noResponse =>
      rw [createProbeAux, h]; unfold firstEmptySlotAux; rw [okProbesAux, h]; rfl
    | errorSignal =>
      rw [createProbeAux, h]; unfold firstEmptySlotAux; rw [okProbesAux, h]; rfl

/-- If some discovered populated slot matches the requested name, the probe
    pass stops with a conflict at a discovered matching slot. -/
theorem createProbeAux_conflict (dev : Device) (cn : Str) (fuel : Nat) :
    ∀ idx fs,
      (∃ e ∈ okProbesAux dev idx fuel,
        emptySlotEntry e = false ∧ lowerStr e.2.channelName = lowerStr cn) →
      ∃ j p, createProbeAux dev cn idx fs fuel = .conflict j p.channelName ∧
        (j, p) ∈ okProbesAux dev idx fuel ∧ emptySlotEntry (j, p) = false ∧
        lowerStr p.channelName = lowerStr cn := by
  induction fuel with
  | zero => intro idx fs h; simp [okProbesAux] at h
  | succ n ih =>
    intro idx fs h
    cases hd : dev idx with
    | ok p =>
      rw [okProbesAux, hd] at h
      by_cases he : isEmptySlot p.channelName p.channelSecret.toHex
      · have htail : ∃ e ∈ okProbesAux dev (idx+1) n,
            emptySlotEntry e = false ∧ lowerStr e.2.channelName = lowerStr cn := by
          rcases h with ⟨e, hme, hpe, hmatch⟩
          rcases List.mem_cons.mp hme with h1 | h1
          · exfalso; rw [h1] at hpe; simp [emptySlotEntry, he] at hpe
          · exact ⟨e, h1, hpe, hmatch⟩
        rcases ih (idx+1) (if (fs : Option Nat).isNone then some idx else fs) htail
          with ⟨j, q, hres, hmem, hpop, hmatch⟩
        refine ⟨j, q, ?_, ?_, hpop, hmatch⟩
        · rw [createProbeAux, hd]; simp only [he, if_true]; exact hres
        · rw [okProbesAux, hd]; exact List.mem_cons_of_mem _ hmem
      · by_cases hm : lowerStr p.channelName = lowerStr cn
        · refine ⟨idx, p, ?_, ?_, by simp [emptySlotEntry, he], hm⟩
          · rw [createProbeAux, hd]; simp [he, hm]
          · rw [okProbesAux, hd]; exact List.mem_cons_self _ _
        · have htail : ∃ e ∈ okProbesAux dev (idx+1) n,
              emptySlotEntry e = false ∧ lowerStr e.2.channelName = lowerStr cn := by
            rcases h with ⟨e, hme, hpe, hmatch⟩
            rcases List.mem_cons.mp hme with h1 | h1
            · exfalso; rw [h1] at hmatch; exact hm hmatch
            · exact ⟨e, h1, hpe, hmatch⟩
          rcases ih (idx+1) fs htail with ⟨j, q, hres, hmem, hpop, hmatch⟩
          refine ⟨j, q, ?_, ?_, hpop, hmatch⟩
          · rw [createProbeAux, hd]; simp only [he, if_false, beq_iff_eq, hm]
            simpa using hres
          · rw [okProbesAux, hd]; exact List.mem_cons_of_mem _ hmem
    | transportError m => rw [okProbesAux, hd] at h; simp at h
    | noResponse => rw [okProbesAux, hd] at h; simp at h
    | errorSignal => rw [okProbesAux, hd] at h; simp at h

/-- dropWhile is idempotent. -/
theorem dropWhile_dropWhile (p : Char → Bool) (l : List Char) :
    List.dropWhile p (List.dropWhile p l) = List.dropWhile p l := by
  induction l with
  | nil => rfl
  | cons c t ih =>
    by_cases h : p c
    · simp [List.dropWhile_cons, h, ih]
    · simp [List.dropWhile_cons, h]

/-- Prepending marker characters does not change the stripped name. -/
theorem stripHash_replicate_append (n : Nat) (r : Str) :
    stripHash (List.replicate n '#' ++ r) = stripHash r := by
  induction n with
  | zero => simp
  | succ m ih =>
    rw [List.replicate_succ, List.cons_append]
    rw [show stripHash ('#' :: (List.replicate m '#' ++ r)) =
        stripHash (List.replicate m '#' ++ r) by
      simp [stripHash, List.dropWhile_cons]]
    exact ih

/-- stripHash is idempotent. -/
theorem stripHash_idem (r : Str) : stripHash (stripHash r) = stripHash r :=
  dropWhile_dropWhile _ r

/-- A name consisting solely of marker characters strips to the empty
    string. -/
theorem stripHash_replicate (n : Nat) : stripHash (List.replicate n '#') = [] := by
  have h := stripHash_replicate_append n []
  rw [List.append_nil] at h
  rw [h]
  rfl

/- ── Claim theorems ───────────────────────────────────────────────────────── -/

/-- C3: For every sequence of slot responses the device can return to the
    probes of indices 0..MAX_SLOTS−1, the returned ScanResult consists of
    exactly the probed (discovered) slots that are populated — those whose
    name is non-empty or whose hex-rendered secret contains a character
    other than '0' — in ascending probed-index order, and it contains no
    empty slots. -/
theorem scan_sorted_exactly_populated (dev : Device) :
    fetchAllChannels dev =
      ((okProbes dev).filter populatedSlot).map (fun e => mkChannelInfo e.1 e.2)
    ∧ List.Pairwise (fun a b => a.1 < b.1) ((okProbes dev).filter populatedSlot)
    ∧ (∀ e : Nat × SlotPayload, populatedSlot e = true ↔
        (e.2.channelName ≠ [] ∨ ∃ c ∈ e.2.channelSecret.toHex, c ≠ '0'))
    ∧ ∀ c ∈ fetchAllChannels dev, isEmptySlot c.name c.secretHex = false := by
  have heq := fetchAllChannelsAux_eq_filter dev MAX_CHANNEL_SLOTS 0
  refine ⟨heq, ?_, ?_, ?_⟩
  · exact List.Pairwise.sublist (List.filter_sublist _)
      (okProbesAux_pairwise dev MAX_CHANNEL_SLOTS 0)
  · intro e
    simp [populatedSlot, isEmptySlot, List.isEmpty_iff, List.all_eq_true]
  · intro c hc
    rw [fetchAllChannels] at hc
    rw [heq] at hc
    rcases List.mem_map.mp hc with ⟨e, hmem, rfl⟩
    have hp := List.of_mem_filter hmem
    simp only [populatedSlot, Bool.not_eq_true'] at hp
    simpa [mkChannelInfo] using hp

/-- Device refuting C1: the very first probe raises a transport error while
    slot 1 is genuinely populated. -/
def c1dev : Device := fun i =>
  if i = 0 then .transportError "link down".data
  else .ok ⟨"General".data, .bytes [1, 2], none⟩

/-- C1 counterexample: it is not true that a successful empty channel list
    is returned only when the device reports no populated slot — a transport
    error on the very first probe yields a successful empty result even
    though slot 1 holds a populated channel. -/
theorem channels_empty_only_if_none_counterexample :
    ¬ (∀ dev : Device,
        getChannels none dev = .ok ⟨"ok".data, []⟩ →
        ∀ i, i < MAX_CHANNEL_SLOTS → ∀ p, dev i = .ok p →
          isEmptySlot p.channelName p.channelSecret.toHex = true) := by
  intro h
  have h2 := h c1dev (by decide) 1 (by decide)
    ⟨"General".data, .bytes [1, 2], none⟩ (by decide)
  exact absurd h2 (by decide)

/-- C1 amended: GET /channels on a connected device always succeeds with
    status "ok", and the returned channel list is empty exactly when every
    slot discovered before the scan stopped is empty — so a transport
    error, missing response or error sentinel that cuts the scan short
    before any populated slot also yields a successful empty list (the
    partial-scan rule), not only a device that genuinely reports none. -/
theorem channels_empty_iff_no_discovered_populated (dev : Device) :
    getChannels none dev = .ok ⟨"ok".data, fetchAllChannels dev⟩
    ∧ (fetchAllChannels dev = [] ↔ ∀ e ∈ okProbes dev, emptySlotEntry e = true) := by
  refine ⟨rfl, ?_⟩
  rw [fetchAllChannels, fetchAllChannelsAux_eq_filter dev MAX_CHANNEL_SLOTS 0,
    List.map_eq_nil_iff, List.filter_eq_nil_iff]
  simp [populatedSlot, emptySlotEntry, okProbes]

/-- The status code an outcome maps to (200 for a success body). -/
def httpStatus {α : Type} : Except HttpErr α → Nat
  | .error e => e.status
  | .ok _ => 200

/-- A device on which every slot is uninitialised. -/
def emptyDev : Device := fun _ => .ok ⟨[], .bytes [], none⟩

/-- A device holding one populated slot named "test" at index 0, with the
    end-of-table sentinel afterwards. -/
def testDev : Device := fun i =>
  if i = 0 then .ok ⟨"test".data, .bytes [1], none⟩ else .errorSignal

/-- C2 counterexample: a missing or error acknowledgement of the create
    command is mapped to status 504 — the very status code the message path
    uses for DeviceTimeout — so the DeviceRejected outcome of channel
    creation is not mapped to a status code distinct from DeviceTimeout's. -/
theorem create_reject_status_counterexample :
    (createChannel "Chan".data none emptyDev .noResponse emptyDev).outcome =
      .error ⟨504, createNoAckMsg noResponseStr⟩
    ∧ (createChannel "Chan".data none emptyDev (.errorSignal "ERR".data) emptyDev).outcome =
      .error ⟨504, createNoAckMsg "ERR".data⟩
    ∧ (sendMessage "test".data "hi".data none testDev .timeout).outcome =
      .error ⟨504, sendTimeoutMsg⟩
    ∧ httpStatus (createChannel "Chan".data none emptyDev .noResponse emptyDev).outcome =
      httpStatus (sendMessage "test".data "hi".data none testDev .timeout).outcome := by
  exact ⟨by decide, by decide, by decide, by decide⟩

/-- C2 amended: when the acknowledgement of the create command is a missing
    response or an explicit error response, channel creation fails with the
    device-rejected error carrying the device's error payload (or the
    literal "no response"), but the HTTP layer maps it to status 504 — the
    same code used for DeviceTimeout in the message path, not a distinct
    one. -/
theorem create_reject_maps_to_504 (rawName : Str) (dev postDev : Device)
    (k : Nat) (pl : Str)
    (hname : (trimStr rawName).isEmpty = false)
    (hprobe : createProbe dev (trimStr rawName) = .done (some k)) :
    (createChannel rawName none dev .noResponse postDev).outcome =
      .error ⟨504, createNoAckMsg noResponseStr⟩
    ∧ (createChannel rawName none dev (.errorSignal pl) postDev).outcome =
      .error ⟨504, createNoAckMsg pl⟩
    ∧ (createChannel rawName none dev .noResponse postDev).writeIssued =
      some (k, trimStr rawName) := by
  unfold createChannel
  simp [hname, hprobe]

/-- Witness for create_reject_maps_to_504 at a concrete run. -/
theorem create_reject_maps_to_504_witness :
    ((trimStr "Chan".data).isEmpty = false
      ∧ createProbe emptyDev (trimStr "Chan".data) = .done (some 0))
    ∧ ((createChannel "Chan".data none emptyDev .noResponse emptyDev).outcome =
        .error ⟨504, createNoAckMsg noResponseStr⟩
      ∧ (createChannel "Chan".data none emptyDev (.errorSignal "ERR".data) emptyDev).outcome =
        .error ⟨504, createNoAckMsg "ERR".data⟩
      ∧ (createChannel "Chan".data none emptyDev .noResponse emptyDev).writeIssued =
        some (0, trimStr "Chan".data)) :=
  ⟨⟨by decide, by decide⟩,
    create_reject_maps_to_504 "Chan".data emptyDev emptyDev 0 "ERR".data
      (by decide) (by decide)⟩

/-- C4: whenever the creation probe discovers a populated slot whose stored
    name equals the trimmed requested name case-insensitively (no marker
    stripping), creation fails with the 409 conflict error naming a
    discovered conflicting slot index, and no create command is issued. -/
theorem create_conflict_no_write (rawName : Str) (dev postDev : Device)
    (ack : AckResponse)
    (hname : (trimStr rawName).isEmpty = false)
    (hconf : ∃ e ∈ okProbes dev, emptySlotEntry e = false ∧
      lowerStr e.2.channelName = lowerStr (trimStr rawName)) :
    (createChannel rawName none dev ack postDev).writeIssued = none
    ∧ ∃ j p, (createChannel rawName none dev ack postDev).outcome =
        .error ⟨409, conflictMsg p.channelName j⟩
      ∧ (j, p) ∈ okProbes dev ∧ emptySlotEntry (j, p) = false
      ∧ lowerStr p.channelName = lowerStr (trimStr rawName) := by
  simp only [okProbes] at hconf
  rcases createProbeAux_conflict dev (trimStr rawName) MAX_CHANNEL_SLOTS 0 none hconf
    with ⟨j, p, hres, hmem, hpop, hmatch⟩
  constructor
  · unfold createChannel
    simp [hname, createProbe, hres]
  · refine ⟨j, p, ?_, by simpa [okProbes] using hmem, hpop, hmatch⟩
    unfold createChannel
    simp [hname, createProbe, hres]

/-- Device with a populated slot named "Chan" at index 0. -/
def c4dev : Device := fun i =>
  if i = 0 then .ok ⟨"Chan".data, .bytes [1], none⟩ else .errorSignal

/-- Witness for create_conflict_no_write at a concrete run. -/
theorem create_conflict_no_write_witness :
    ((trimStr " chan ".data).isEmpty = false
      ∧ ∃ e ∈ okProbes c4dev, emptySlotEntry e = false ∧
          lowerStr e.2.channelName = lowerStr (trimStr " chan ".data))
    ∧ ((createChannel " chan ".data none c4dev .ok c4dev).writeIssued = none
      ∧ ∃ j p, (createChannel " chan ".data none c4dev .ok c4dev).outcome =
          .error ⟨409, conflictMsg p.channelName j⟩
        ∧ (j, p) ∈ okProbes c4dev ∧ emptySlotEntry (j, p) = false
        ∧ lowerStr p.channelName = lowerStr (trimStr " chan ".data)) :=
  ⟨⟨by decide, by decide⟩,
    create_conflict_no_write " chan ".data c4dev c4dev .ok (by decide) (by decide)⟩

/-- C5: for a conflict-free slot table with two or more discovered empty
    slots, the create command is issued at the first empty slot of the
    left-to-right probe — every other discovered empty slot has a larger
    probe index. -/
theorem create_writes_first_empty (rawName : Str) (dev postDev : Device)
    (ack : AckResponse) (k : Nat)
    (hname : (trimStr rawName).isEmpty = false)
    (hnoconf : noNameConflict dev (trimStr rawName) 0 MAX_CHANNEL_SLOTS)
    (_htwo : 2 ≤ ((okProbes dev).filter emptySlotEntry).length)
    (hfirst : firstEmptySlot dev = some k) :
    (createChannel rawName none dev ack postDev).writeIssued =
      some (k, trimStr rawName)
    ∧ ∀ e ∈ (okProbes dev).filter emptySlotEntry, k ≤ e.1 := by
  have hprobe : createProbe dev (trimStr rawName) = .done (some k) := by
    rw [createProbe, createProbeAux_none dev (trimStr rawName) MAX_CHANNEL_SLOTS 0 hnoconf]
    rw [show firstEmptySlotAux dev 0 MAX_CHANNEL_SLOTS = firstEmptySlot dev from rfl,
      hfirst]
  constructor
  · unfold createChannel
    cases ack <;> simp [hname, hprobe]
  · intro e he
    have hpw : List.Pairwise (fun a b => a.1 < b.1)
        ((okProbes dev).filter emptySlotEntry) :=
      List.Pairwise.sublist (List.filter_sublist _)
        (okProbesAux_pairwise dev MAX_CHANNEL_SLOTS 0)
    have hhd : ((okProbes dev).filter emptySlotEntry).head?.map Prod.fst = some k := by
      have : firstEmptySlotAux dev 0 MAX_CHANNEL_SLOTS = some k := hfirst
      simpa [firstEmptySlotAux, okProbes] using this
    cases hfl : (okProbes dev).filter emptySlotEntry with
    | nil => rw [hfl] at he; simp at he
    | cons a t =>
      rw [hfl] at hhd
      simp only [List.head?_cons, Option.map_some] at hhd
      rw [hfl] at he hpw
      rcases List.mem_cons.mp he with h1 | h1
      · rw [h1, Option.some.inj hhd]
      · exact Nat.le_of_lt (by
          rw [← Option.some.inj hhd]
          exact (List.pairwise_cons.mp hpw).1 e h1)

/-- Device with one populated slot at index 0 and empty slots elsewhere. -/
def c5dev : Device := fun i =>
  if i = 0 then .ok ⟨"A".data, .bytes [1], none⟩ else .ok ⟨[], .bytes [], none⟩

/-- Witness for create_writes_first_empty at a concrete run. -/
theorem create_writes_first_empty_witness :
    ((trimStr "B".data).isEmpty = false
      ∧ noNameConflict c5dev (trimStr "B".data) 0 MAX_CHANNEL_SLOTS
      ∧ 2 ≤ ((okProbes c5dev).filter emptySlotEntry).length
      ∧ firstEmptySlot c5dev = some 1)
    ∧ ((createChannel "B".data none c5dev .ok c5dev).writeIssued =
        some (1, trimStr "B".data)
      ∧ ∀ e ∈ (okProbes c5dev).filter emptySlotEntry, 1 ≤ e.1) :=
  ⟨⟨by decide, by decide, by decide, by decide⟩,
    create_writes_first_empty "B".data c5dev c5dev .ok 1
      (by decide) (by decide) (by decide) (by decide)⟩

/-- C9: when the creation probe stops early with every discovered slot
    populated and none conflicting, creation fails with the 400
    "all 8 slots are occupied" error — though the unprobed slots may well
    be empty — and no create command is issued. -/
theorem create_no_free_slot_on_short_probe (rawName : Str) (dev postDev : Device)
    (ack : AckResponse)
    (hname : (trimStr rawName).isEmpty = false)
    (_hshort : (okProbes dev).length < MAX_CHANNEL_SLOTS)
    (hpop : ∀ e ∈ okProbes dev, emptySlotEntry e = false)
    (hnoconf : noNameConflict dev (trimStr rawName) 0 MAX_CHANNEL_SLOTS) :
    (createChannel rawName none dev ack postDev).writeIssued = none
    ∧ (createChannel rawName none dev ack postDev).outcome =
      .error ⟨400, msgNoFreeSlot⟩ := by
  simp only [okProbes] at hpop
  have hfe : firstEmptySlotAux dev 0 MAX_CHANNEL_SLOTS = none := by
    unfold firstEmptySlotAux
    have hnil : (okProbesAux dev 0 MAX_CHANNEL_SLOTS).filter emptySlotEntry = [] := by
      rw [List.filter_eq_nil_iff]
      intro e he
      simp [hpop e he]
    rw [hnil]
    rfl
  have hprobe : createProbe dev (trimStr rawName) = .done none := by
    rw [createProbe, createProbeAux_none dev (trimStr rawName) MAX_CHANNEL_SLOTS 0 hnoconf,
      hfe]
  constructor <;> (unfold createChannel; simp [hname, hprobe])

/-- Device whose probe stops at index 1 with only a populated slot 0
    discovered; the never-probed slots 2..7 are in fact empty. -/
def c9dev : Device := fun i =>
  if i = 0 then .ok ⟨"A".data, .bytes [1], none⟩
  else if i = 1 then .transportError "boom".data
  else .ok ⟨[], .bytes [], none⟩

/-- Witness for create_no_free_slot_on_short_probe at a concrete run. -/
theorem create_no_free_slot_on_short_probe_witness :
    ((trimStr "B".data).isEmpty = false
      ∧ (okProbes c9dev).length < MAX_CHANNEL_SLOTS
      ∧ (∀ e ∈ okProbes c9dev, emptySlotEntry e = false)
      ∧ noNameConflict c9dev (trimStr "B".data) 0 MAX_CHANNEL_SLOTS)
    ∧ ((createChannel "B".data none c9dev .ok c9dev).writeIssued = none
      ∧ (createChannel "B".data none c9dev .ok c9dev).outcome =
        .error ⟨400, msgNoFreeSlot⟩) :=
  ⟨⟨by decide, by decide, by decide, by decide⟩,
    create_no_free_slot_on_short_probe "B".data c9dev c9dev .ok
      (by decide) (by decide) (by decide) (by decide)⟩

/-- C6: for a dispatch that reaches the send command (non-blank fields,
    connected, channel resolved), an expired bounded wait fails with the 504
    timeout error; a missing response or explicit error event fails with the
    502 rejected error carrying the device payload or the "no response"
    literal; a successful acknowledgement returns the resolved index and
    canonical name. -/
theorem send_ack_outcomes (rawChannel rawMessage : Str) (dev : Device)
    (chanIdx : Nat) (chanName pl : Str)
    (hc : (trimStr rawChannel).isEmpty = false)
    (hm : (trimStr rawMessage).isEmpty = false)
    (hres : (resolveChannelIndex dev (trimStr rawChannel)).1 =
      .ok (chanIdx, chanName)) :
    (sendMessage rawChannel rawMessage none dev .timeout).outcome =
      .error ⟨504, sendTimeoutMsg⟩
    ∧ (sendMessage rawChannel rawMessage none dev .noResponse).outcome =
      .error ⟨502, rejectedMsg noResponseStr⟩
    ∧ (sendMessage rawChannel rawMessage none dev (.errorSignal pl)).outcome =
      .error ⟨502, rejectedMsg pl⟩
    ∧ (sendMessage rawChannel rawMessage none dev .ok).outcome =
      .ok ⟨"ok".data, chanIdx, chanName⟩ := by
  unfold sendMessage
  simp [hc, hm, hres]

/-- Witness for send_ack_outcomes at a concrete run. -/
theorem send_ack_outcomes_witness :
    ((trimStr "test".data).isEmpty = false
      ∧ (trimStr "hi".data).isEmpty = false
      ∧ (resolveChannelIndex testDev (trimStr "test".data)).1 =
        .ok (0, "test".data))
    ∧ ((sendMessage "test".data "hi".data none testDev .timeout).outcome =
        .error ⟨504, sendTimeoutMsg⟩
      ∧ (sendMessage "test".data "hi".data none testDev .noResponse).outcome =
        .error ⟨502, rejectedMsg noResponseStr⟩
      ∧ (sendMessage "test".data "hi".data none testDev (.errorSignal "E".data)).outcome =
        .error ⟨502, rejectedMsg "E".data⟩
      ∧ (sendMessage "test".data "hi".data none testDev .ok).outcome =
        .ok ⟨"ok".data, 0, "test".data⟩) :=
  ⟨⟨by decide, by decide, by decide⟩,
    send_ack_outcomes "test".data "hi".data testDev 0 "test".data "E".data
      (by decide) (by decide) (by decide)⟩

/-- C8: a dispatch whose channel or message trims to the empty string fails
    with the 400 error naming the blank field, opens no device session,
    issues no slot probe and no send command. -/
theorem send_empty_fields_no_device_calls (rawChannel rawMessage : Str)
    (connect : Option Str) (dev : Device) (ack : SendAck)
    (h : (trimStr rawChannel).isEmpty = true ∨ (trimStr rawMessage).isEmpty = true) :
    (sendMessage rawChannel rawMessage connect dev ack).sessionOpened = false
    ∧ (sendMessage rawChannel rawMessage connect dev ack).deviceCalls = 0
    ∧ (sendMessage rawChannel rawMessage connect dev ack).sendIssued = false
    ∧ ((trimStr rawChannel).isEmpty = true →
        (sendMessage rawChannel rawMessage connect dev ack).outcome =
          .error ⟨400, msgChannelEmpty⟩)
    ∧ ((trimStr rawChannel).isEmpty = false →
        (sendMessage rawChannel rawMessage connect dev ack).outcome =
          .error ⟨400, msgMessageEmpty⟩) := by
  by_cases hc : (trimStr rawChannel).isEmpty = true
  · unfold sendMessage
    simp [hc]
  · have hm : (trimStr rawMessage).isEmpty = true := by
      rcases h with h1 | h1
      · exact absurd h1 hc
      · exact h1
    unfold sendMessage
    simp [hc, hm]

/-- Witness for send_empty_fields_no_device_calls at a concrete run. -/
theorem send_empty_fields_no_device_calls_witness :
    ((trimStr "  ".data).isEmpty = true ∨ (trimStr "hi".data).isEmpty = true)
    ∧ ((sendMessage "  ".data "hi".data none emptyDev .ok).sessionOpened = false
      ∧ (sendMessage "  ".data "hi".data none emptyDev .ok).deviceCalls = 0
      ∧ (sendMessage "  ".data "hi".data none emptyDev .ok).sendIssued = false
      ∧ ((trimStr "  ".data).isEmpty = true →
          (sendMessage "  ".data "hi".data none emptyDev .ok).outcome =
            .error ⟨400, msgChannelEmpty⟩)
      ∧ ((trimStr "  ".data).isEmpty = false →
          (sendMessage "  ".data "hi".data none emptyDev .ok).outcome =
            .error ⟨400, msgMessageEmpty⟩)) :=
  ⟨Or.inl (by decide),
    send_empty_fields_no_device_calls "  ".data "hi".data none emptyDev .ok
      (Or.inl (by decide))⟩

/-- Unfolding equation for one step of the resolver loop. -/
theorem resolveAux_succ (dev : Device) (needle : Str) (idx fuel : Nat) :
    resolveAux dev needle idx (fuel+1) =
      match dev idx with
      | .ok p =>
        if isEmptySlot p.channelName p.channelSecret.toHex then
          ((resolveAux dev needle (idx+1) fuel).1,
            (resolveAux dev needle (idx+1) fuel).2 + 1)
        else if lowerStr (stripHash p.channelName) == needle then
          (some (p.channelIdx.getD idx, p.channelName), 1)
        else
          ((resolveAux dev needle (idx+1) fuel).1,
            (resolveAux dev needle (idx+1) fuel).2 + 1)
      | _ => (none, 1) := rfl

/-- Device holding exactly one populated slot (name nm, non-zero secret) at
    index 0, with the end-of-table sentinel afterwards. -/
def singleSlotDev (nm : Str) : Device := fun i =>
  if i = 0 then .ok ⟨nm, .bytes [1], none⟩ else .errorSignal

/-- Resolution against a single stored slot succeeds iff the stripped,
    lower-cased names agree. -/
theorem resolveChannelIndex_singleSlot (sn rq : Str) :
    resolveChannelIndex (singleSlotDev sn) rq =
      (if lowerStr (stripHash sn) = lowerStr (stripHash rq)
        then (.ok (0, sn), 1)
        else (.error ⟨404, notFoundMsg rq⟩, 2)) := by
  have hempty : isEmptySlot sn (SecretRaw.toHex (SecretRaw.bytes [1])) = false := by
    unfold isEmptySlot
    rw [show SecretRaw.toHex (SecretRaw.bytes [1]) = ['0', '1'] from rfl]
    rw [show ((['0', '1'] : Str).all fun c => c == '0') = false from by decide]
    exact Bool.and_false _
  have h0 : singleSlotDev sn 0 = .ok ⟨sn, SecretRaw.bytes [1], none⟩ := rfl
  have h1 : singleSlotDev sn 1 = .errorSignal := by
    unfold singleSlotDev
    simp
  unfold resolveChannelIndex
  rw [show MAX_CHANNEL_SLOTS = 7 + 1 from rfl, resolveAux_succ, h0]
  simp only [hempty, Bool.false_eq_true, if_false]
  by_cases hmatch : lowerStr (stripHash sn) = lowerStr (stripHash rq)
  · simp [hmatch]
  · have hbeq : (lowerStr (stripHash sn) == lowerStr (stripHash rq)) = false := by
      simp [hmatch]
    simp only [hbeq, Bool.false_eq_true, if_false]
    rw [show (7 : Nat) = 6 + 1 from rfl, resolveAux_succ, h1]
    simp [hmatch]

/-- C7: channel resolution is marker- and case-insensitive in both
    directions — against a stored populated slot, a request resolves iff the
    two names agree after stripping the leading marker and lower-casing on
    both sides; in particular requesting "#Test" matches a stored "test" and
    requesting "test" matches a stored "#TEST". -/
theorem resolve_marker_case_insensitive :
    (∀ storedName requested : Str,
      ((resolveChannelIndex (singleSlotDev storedName) requested).1 =
          .ok (0, storedName)
        ↔ lowerStr (stripHash storedName) = lowerStr (stripHash requested)))
    ∧ (resolveChannelIndex (singleSlotDev "test".data) "#Test".data).1 =
      .ok (0, "test".data)
    ∧ (resolveChannelIndex (singleSlotDev "#TEST".data) "test".data).1 =
      .ok (0, "#TEST".data) := by
  refine ⟨?_, ?_, ?_⟩
  · intro sn rq
    constructor
    · intro h
      by_contra hne
      rw [resolveChannelIndex_singleSlot, if_neg hne] at h
      exact Except.noConfusion h
    · intro h
      rw [resolveChannelIndex_singleSlot, if_pos h]
  · rw [resolveChannelIndex_singleSlot, if_pos (by decide)]
  · rw [resolveChannelIndex_singleSlot, if_pos (by decide)]

/-- C10: marker stripping removes every leading '#', is idempotent, and
    resolution is invariant under prepending any number of markers to the
    request — same successful result, same number of probes — while a
    stored name consisting solely of markers is compared as the empty
    string. -/
theorem stripHash_all_leading_markers :
    (∀ (r : Str) (n : Nat), stripHash (List.replicate n '#' ++ r) = stripHash r)
    ∧ (∀ r : Str, stripHash (stripHash r) = stripHash r)
    ∧ (∀ (dev : Device) (r : Str) (n : Nat) (v : Nat × Str),
        ((resolveChannelIndex dev (List.replicate n '#' ++ r)).1 = .ok v ↔
          (resolveChannelIndex dev r).1 = .ok v))
    ∧ (∀ (dev : Device) (r : Str) (n : Nat),
        (resolveChannelIndex dev (List.replicate n '#' ++ r)).2 =
          (resolveChannelIndex dev r).2)
    ∧ (∀ m : Nat, stripHash (List.replicate m '#') = []) := by
  have hneedle : ∀ (r : Str) (n : Nat),
      lowerStr (stripHash (List.replicate n '#' ++ r)) = lowerStr (stripHash r) := by
    intro r n
    rw [stripHash_replicate_append]
  refine ⟨fun r n => stripHash_replicate_append n r, stripHash_idem, ?_, ?_,
    stripHash_replicate⟩
  · intro dev r n v
    unfold resolveChannelIndex
    rw [hneedle r n]
    cases h : (resolveAux dev (lowerStr (stripHash r)) 0 MAX_CHANNEL_SLOTS).1 with
    | some w => simp [h]
    | none => simp [h]
  · intro dev r n
    unfold resolveChannelIndex
    rw [hneedle r n]
    cases h : (resolveAux dev (lowerStr (stripHash r)) 0 MAX_CHANNEL_SLOTS).1 with
    | some w => simp [h]
    | none => simp [h]
